import Mathlib

/-!
Shallow embedding of the Mini-DERMS feeder controller core
(`src/pi_der_agent.py` and `src/simulator/simulator.py`).

Python floats are modelled as rationals (ℚ).  Randomness
(`random.uniform`, `random.gauss`, `uuid.uuid4`) and the wall clock are
injected as explicit parameters; where the code draws
`random.uniform(-a, a)` the theorems carry the hypothesis `|x| ≤ a`.
The transcendental `math.sin(π·f)` is abstracted as a parameter
`sin_val`; for `f ∈ [0,1]` it satisfies `0 ≤ sin_val ≤ 1`, which is
proved below (`sin_pi_frac_mem`) and taken as a hypothesis where needed.
JSON dynamic values are modelled by `JVal`; Python's `bool`-is-an-`int`
behaviour is reflected in `JVal.asNum`.
-/

/-- A dynamically-typed JSON value as seen by `payload.get(...)`:
`jnull` covers both an absent key and an explicit `null`. -/
inductive JVal where
  | jnull : JVal
  | jstr : String → JVal
  | jnum : ℚ → JVal
  | jbool : Bool → JVal
deriving DecidableEq, Repr

/-- Numeric view used by `isinstance(x, (int, float))` checks and by the
`== 1` comparison on the envelope version (Python treats `True` as `1`). -/
def JVal.asNum : JVal → Option ℚ
  | JVal.jnum q => some q
  | JVal.jbool b => some (if b then 1 else 0)
  | _ => none

inductive DeviceType where
  | pv : DeviceType
  | battery : DeviceType
  | ev : DeviceType
deriving DecidableEq, Repr

/-- The fields of `AgentConfig` that the control/physics core reads. -/
structure AgentConfig where
  device_id : String
  site_id : String
  device_type : DeviceType
  p_max_kw : ℚ
deriving DecidableEq, Repr

/-- `DERState` from `pi_der_agent.py`.  The `processed_setpoints` set is
modelled as a list with membership semantics. -/
structure DERState where
  config : AgentConfig
  p_actual_kw : ℚ
  p_setpoint_kw : Option ℚ
  soc : Option ℚ
  processed_setpoints : List String
deriving DecidableEq, Repr

/-- A decoded control envelope, with the `payload.command` fields
flattened: an absent `payload`/`command` yields `jnull` fields, exactly
as `(payload.get("payload") or {}).get("command", {}).get(...)` does. -/
structure ControlMsg where
  v : JVal
  messageType : JVal
  messageId : JVal
  targetPowerKw : JVal
  validUntilMs : JVal
deriving DecidableEq, Repr

/-- Outcome labels mirroring the distinct log-and-return branches of
`DERState.update_from_control`. -/
inductive AdmitResult where
  | applied : ℚ → AdmitResult
  | rejectedWrongVersionOrType : AdmitResult
  | rejectedDuplicate : AdmitResult
  | rejectedExpired : AdmitResult
  | rejectedMissingTarget : AdmitResult
  | rejectedInvalidTargetType : AdmitResult
deriving DecidableEq, Repr

/-- `isinstance(message_id, str) and message_id in processed`. -/
def is_dup (processed : List String) (mid : JVal) : Bool :=
  match mid with
  | JVal.jstr s => decide (s ∈ processed)
  | _ => false

/-- `isinstance(valid_until, (int, float)) and valid_until < now_ms`. -/
def is_expired (validUntil : JVal) (now_ms : ℚ) : Bool :=
  match validUntil.asNum with
  | some u => decide (u < now_ms)
  | none => false

/-- The successful-admission mutation (step 5): store the setpoint and,
when the message id is a string, record it in the dedup ledger. -/
def DERState.apply_setpoint (st : DERState) (q : ℚ) (mid : JVal) : DERState :=
  { st with
    p_setpoint_kw := some q
    processed_setpoints :=
      match mid with
      | JVal.jstr s => s :: st.processed_setpoints
      | _ => st.processed_setpoints }

/-- `DERState.update_from_control`, returning the next state together
with a label for the branch taken. -/
def DERState.admit_setpoint (st : DERState) (payload : ControlMsg) (now_ms : ℚ) :
    DERState × AdmitResult :=
  if payload.messageType = JVal.jstr "setpoint" ∧ payload.v.asNum = some 1 then
    if is_dup st.processed_setpoints payload.messageId then
      (st, AdmitResult.rejectedDuplicate)
    else if is_expired payload.validUntilMs now_ms then
      (st, AdmitResult.rejectedExpired)
    else
      match payload.targetPowerKw with
      | JVal.jnull => (st, AdmitResult.rejectedMissingTarget)
      | JVal.jstr _ => (st, AdmitResult.rejectedInvalidTargetType)
      | JVal.jnum q => (st.apply_setpoint q payload.messageId, AdmitResult.applied q)
      | JVal.jbool b =>
          (st.apply_setpoint (if b then 1 else 0) payload.messageId,
           AdmitResult.applied (if b then 1 else 0))
  else (st, AdmitResult.rejectedWrongVersionOrType)

/-- The state effect of `update_from_control` alone. -/
def DERState.update_from_control (st : DERState) (payload : ControlMsg)
    (now_ms : ℚ) : DERState :=
  (st.admit_setpoint payload now_ms).1

/-- `max lo (min hi x)`, the `max(lo, min(hi, x))` idiom of the source. -/
def clamp (lo hi x : ℚ) : ℚ := max lo (min hi x)

/-- `(hour - 6) / 12` clamped to `[0, 1]` (agent PV daylight curve). -/
def daylight_fraction (hour : ℚ) : ℚ := clamp 0 1 ((hour - 6) / 12)

/-- `DERState.compute_pv_power` with `sin_val` standing for
`sin(π·daylight_fraction)` and `noise_frac` for `random.uniform(-0.05, 0.05)`:
`max(0, p_max·sin_val + noise_frac·p_max)`. -/
def DERState.compute_pv_power (st : DERState) (sin_val noise_frac : ℚ) : ℚ :=
  max 0 (st.config.p_max_kw * sin_val + noise_frac * st.config.p_max_kw)

/-- The commanded target of the agent's `step`:
`max(-p_max, min(p_max, setpoint or 0))`. -/
def DERState.target_kw (st : DERState) : ℚ :=
  clamp (-st.config.p_max_kw) st.config.p_max_kw (st.p_setpoint_kw.getD 0)

/-- `DERState.step`.  PV overwrites `p_actual_kw` from the daylight
curve and touches nothing else; battery/EV ramp toward the clamped
target with factor 0.4 and then integrate SOC (guarded by
`p_max_kw > 0`), clamped to `[0, 100]`. -/
def DERState.step (st : DERState) (dt_seconds sin_val noise_frac : ℚ) : DERState :=
  if st.config.device_type = DeviceType.pv then
    { st with p_actual_kw := st.compute_pv_power sin_val noise_frac }
  else
    let p' := st.p_actual_kw + (st.target_kw - st.p_actual_kw) * (2 / 5)
    let soc' :=
      match st.soc with
      | some s =>
          if 0 < st.config.p_max_kw then
            some (clamp 0 100
              (s + -(p' / st.config.p_max_kw) * 100 * (dt_seconds / 3600)))
          else some s
      | none => none
    { st with p_actual_kw := p', soc := soc' }

/-- Round to `n` decimal places, modelling Python's `round(x, n)`
(ties, which differ between banker's rounding and `round`, play no role
in the claims below). -/
def roundTo (n : ℕ) (x : ℚ) : ℚ := ((round (x * 10 ^ n) : ℤ) : ℚ) / 10 ^ n

structure Readings where
  powerKw : ℚ
  soc : Option ℚ
deriving DecidableEq, Repr

/-- The telemetry envelope fields the claims reason about. -/
structure TelemetryEnvelope where
  v : ℚ
  messageType : String
  messageId : String
  deviceId : String
  deviceType : DeviceType
  timestampMs : ℚ
  sentAtMs : ℚ
  readings : Readings
  siteId : String
deriving DecidableEq, Repr

/-- `DERState.telemetry` with the fresh `uuid4` and the clock injected:
`powerKw` is rounded to 3 decimals, `soc` (when present) to 2. -/
def DERState.telemetry (st : DERState) (now_ms : ℚ) (fresh_id : String) :
    TelemetryEnvelope :=
  { v := 1
    messageType := "telemetry"
    messageId := fresh_id
    deviceId := st.config.device_id
    deviceType := st.config.device_type
    timestampMs := now_ms
    sentAtMs := now_ms
    readings :=
      { powerKw := roundTo 3 st.p_actual_kw
        soc := Option.map (roundTo 2) st.soc }
    siteId := st.config.site_id }

/-- One inbound event of the agent process: a control message delivered
by MQTT, or one iteration of the publish loop (`step`). -/
inductive AgentEvent where
  | control : ControlMsg → ℚ → AgentEvent
  | tick : ℚ → ℚ → ℚ → AgentEvent

def DERState.apply_event (st : DERState) : AgentEvent → DERState
  | AgentEvent.control payload now_ms => st.update_from_control payload now_ms
  | AgentEvent.tick dt sv nf => st.step dt sv nf

/-- Run the agent over a finite event trace. -/
def DERState.run : DERState → List AgentEvent → DERState
  | st, [] => st
  | st, e :: es => DERState.run (st.apply_event e) es

/-- The agent's SOC bound: absent, or within `[0, 100]`. -/
def soc_in_bounds (st : DERState) : Prop :=
  match st.soc with
  | some s => 0 ≤ s ∧ s ≤ 100
  | none => True

/-!  Simulator (`src/simulator/simulator.py`). -/

/-- `DT_SECONDS = 5.0`. -/
def DT_SECONDS : ℚ := 5

/-- `BATTERY_KWH = 20.0`. -/
def BATTERY_KWH : ℚ := 20

/-- The simulator's shared command state: the `SETPOINTS` dict (as an
association list, most recent entry first) and `PROCESSED_SETPOINTS`. -/
structure SimState where
  setpoints : List (String × ℚ)
  processed : List String
deriving DecidableEq, Repr

/-- The setpoint branch of the simulator's `on_message` (a parsed
envelope delivered on `der/setpoints/<...>/<device_id>`). -/
def sim_on_message (sim : SimState) (device_id : String) (payload : ControlMsg)
    (now_ms : ℚ) : SimState :=
  if payload.messageType = JVal.jstr "setpoint" ∧ payload.v.asNum = some 1 then
    if is_dup sim.processed payload.messageId then sim
    else if is_expired payload.validUntilMs now_ms then sim
    else
      match payload.targetPowerKw.asNum with
      | some q =>
          { setpoints := (device_id, q) :: sim.setpoints
            processed :=
              match payload.messageId with
              | JVal.jstr s => s :: sim.processed
              | _ => sim.processed }
      | none => sim
  else sim

/-- `pv_power_kw(sim_time, p_max)`: zero outside the 06:00–20:00 window,
otherwise `clamp(0, 1.1, sin_shape + noise) * p_max`, where `sin_val`
stands for `sin(π·day_fraction)` and `noise` for
`random.uniform(-0.05, 0.05)`. -/
def pv_power_kw (hour p_max_kw sin_val noise : ℚ) : ℚ :=
  if hour ≤ 6 ∨ 20 ≤ hour then 0
  else
    let shape := max sin_val 0
    let level := max 0 (min (11 / 10) (shape + noise))
    level * p_max_kw

/-- `ramp_power`: move `ramp_rate` toward the target (never past it),
add jitter (`random.uniform(-0.2, 0.2)`), clamp to `[p_min, p_max]`. -/
def ramp_power (current target ramp_rate p_max p_min jitter : ℚ) : ℚ :=
  let next0 :=
    if current < target then min (current + ramp_rate) target
    else if target < current then max (current - ramp_rate) target
    else current
  max p_min (min (next0 + jitter) p_max)

/-- The target selection of `compute_ev_power`: with a setpoint,
`max(0, min(p_max, setpoint))`; without one, a profile-driven default
centre plus gaussian jitter, clamped the same way. -/
def ev_target (setpoint : Option ℚ) (p_max load_multiplier gauss : ℚ) : ℚ :=
  match setpoint with
  | some sp => max 0 (min p_max sp)
  | none => max 0 (min p_max (p_max * (11 / 20) * load_multiplier + gauss))

/-- `compute_ev_power` (also the value stored into `LAST_P_ACTUAL`):
ramp from the last stored power (defaulting to the target) toward the
target with rate 1.0 and floor `p_min = 0`. -/
def compute_ev_power (setpoint : Option ℚ) (p_max load_multiplier gauss : ℚ)
    (last_p : Option ℚ) (jitter : ℚ) : ℚ :=
  let target := ev_target setpoint p_max load_multiplier gauss
  ramp_power (last_p.getD target) target 1 p_max 0 jitter

/-- `BATTERY_STATE`. -/
structure BatteryState where
  soc : ℚ
  p_actual_kw : ℚ
deriving DecidableEq, Repr

/-- The battery's internal target policy in the simulator main loop. -/
def battery_target_kw (soc load_multiplier : ℚ) : ℚ :=
  if 11 / 20 < soc then 6 / 5 * load_multiplier
  else if soc < 9 / 20 then -(6 / 5) * load_multiplier
  else 1 / 5 * (load_multiplier - 1)

/-- One battery iteration of the simulator main loop: ramp with rate
0.5 in `[-p_max, p_max]`, then integrate SOC over `DT_SECONDS` with the
**positive** sign (`soc += energy/BATTERY_KWH`), clamped to
`[0.1, 0.9]`. -/
def battery_step (bs : BatteryState) (p_max load_multiplier jitter : ℚ) :
    BatteryState :=
  let p := ramp_power bs.p_actual_kw (battery_target_kw bs.soc load_multiplier)
    (1 / 2) p_max (-p_max) jitter
  let soc_delta := p * (DT_SECONDS / 3600) / BATTERY_KWH
  { soc := clamp (1 / 10) (9 / 10) (bs.soc + soc_delta), p_actual_kw := p }

/-- `EV_STATE[device_id]` plus the `LAST_P_ACTUAL` slot used for ramping. -/
structure EvState where
  soc : ℚ
  p_actual_kw : ℚ
  last_p_actual : Option ℚ
deriving DecidableEq, Repr

/-- One EV iteration of the simulator main loop: compute power, integrate
SOC with the **positive** sign (`soc += energy/capacity`) clamped to
`[0, 1]`, and once `soc ≥ 0.98` force the published power and the stored
last-actual to 0. -/
def ev_step (ev : EvState) (setpoint : Option ℚ)
    (p_max capacity load_multiplier gauss jitter : ℚ) : EvState :=
  let p := compute_ev_power setpoint p_max load_multiplier gauss
    ev.last_p_actual jitter
  let soc1 := clamp 0 1 (ev.soc + p * (DT_SECONDS / 3600) / capacity)
  let p_pub := if 98 / 100 ≤ soc1 then 0 else p
  { soc := soc1, p_actual_kw := p_pub, last_p_actual := some p_pub }

/-- The simulator's telemetry envelope: the readings carry `p_actual`
and `soc` exactly as computed, with no rounding. -/
def sim_envelope (device_id : String) (dtype : DeviceType) (p_actual : ℚ)
    (soc : Option ℚ) (timestamp_ms sent_at_ms : ℚ) (fresh_id : String)
    (site_id : String) : TelemetryEnvelope :=
  { v := 1
    messageType := "telemetry"
    messageId := fresh_id
    deviceId := device_id
    deviceType := dtype
    timestampMs := timestamp_ms
    sentAtMs := sent_at_ms
    readings := { powerKw := p_actual, soc := soc }
    siteId := site_id }

/-!  Helper lemmas shared by the claim theorems. -/

theorem clamp_mem (lo hi x : ℚ) (h : lo ≤ hi) :
    lo ≤ clamp lo hi x ∧ clamp lo hi x ≤ hi := by
  constructor
  · exact le_max_left _ _
  · exact max_le h (min_le_left _ _)

theorem ramp_power_mem (current target ramp_rate p_max p_min jitter : ℚ)
    (h : p_min ≤ p_max) :
    p_min ≤ ramp_power current target ramp_rate p_max p_min jitter ∧
      ramp_power current target ramp_rate p_max p_min jitter ≤ p_max := by
  unfold ramp_power
  constructor
  · exact le_max_left _ _
  · exact max_le h (min_le_right _ _)

/-- For `f ∈ [0,1]`, the abstracted value `sin(π·f)` lies in `[0,1]`:
justification for the `sin_val` hypotheses used below. -/
theorem sin_pi_frac_mem (f : ℝ) (h0 : 0 ≤ f) (h1 : f ≤ 1) :
    0 ≤ Real.sin (Real.pi * f) ∧ Real.sin (Real.pi * f) ≤ 1 := by
  constructor
  · apply Real.sin_nonneg_of_nonneg_of_le_pi
    · positivity
    · nlinarith [Real.pi_pos]
  · exact Real.sin_le_one _

/-!  Concrete states used by witnesses and counterexamples. -/

/-- A PV agent with `p_max_kw = 4`. -/
def pvAgentState : DERState :=
  { config := { device_id := "pv-1", site_id := "house-01",
                device_type := DeviceType.pv, p_max_kw := 4 }
    p_actual_kw := 0
    p_setpoint_kw := none
    soc := none
    processed_setpoints := [] }

/-- A battery agent with `p_max_kw = 4` and SOC 50. -/
def batAgentState : DERState :=
  { config := { device_id := "bat-1", site_id := "house-01",
                device_type := DeviceType.battery, p_max_kw := 4 }
    p_actual_kw := 0
    p_setpoint_kw := none
    soc := some 50
    processed_setpoints := [] }

/-!  Claim C1. -/

/-- C1, counterexample: a PV agent step at noon (`sin_val = 1`, an
admissible value of `sin(π·daylight_fraction)` on `[0,1]`) with the
noise draw `+0.05` (the top of `random.uniform(-0.05, 0.05)`) yields
`p_actual_kw = 4.2` against `p_max_kw = 4`, so the claimed invariant
`|pActualKw| ≤ pMaxKw` fails for the PV branch once noise is added. -/
theorem C1_counterexample :
    ((0 : ℚ) ≤ 1 ∧ (1 : ℚ) ≤ 1) ∧ |(1 : ℚ) / 20| ≤ 1 / 20 ∧
      ¬ |(pvAgentState.step 5 1 (1 / 20)).p_actual_kw| ≤
          pvAgentState.config.p_max_kw := by
  refine ⟨⟨by norm_num, le_refl 1⟩,
    by rw [abs_of_nonneg (by norm_num : (0 : ℚ) ≤ 1 / 20)], ?_⟩
  have hstep : (pvAgentState.step 5 1 (1 / 20)).p_actual_kw = 21 / 5 := by
    norm_num [pvAgentState, DERState.step, DERState.compute_pv_power]
  rw [hstep, abs_of_nonneg (by norm_num : (0 : ℚ) ≤ 21 / 5)]
  norm_num [pvAgentState]

/-- C1, amended: battery/EV steps of the agent do preserve
`|pActualKw| ≤ pMaxKw`, and the simulator's `ramp_power` always lands in
`[p_min, p_max]`; the PV branches only satisfy the weaker bounds
`0 ≤ pActualKw ≤ 1.05·pMaxKw` (agent, noise fraction up to 0.05) and
`0 ≤ pActualKw ≤ 1.1·pMaxKw` (simulator, level capped at 1.1). -/
theorem C1_power_bound (st : DERState) (dt sin_val noise_frac : ℚ)
    (hs1 : sin_val ≤ 1) (hn : |noise_frac| ≤ 1 / 20)
    (hInv : |st.p_actual_kw| ≤ st.config.p_max_kw)
    (current target rr p_max p_min jitter hour sv2 nz2 : ℚ)
    (hmm : p_min ≤ p_max) (hpm : 0 ≤ p_max) :
    (st.config.device_type ≠ DeviceType.pv →
      |(st.step dt sin_val noise_frac).p_actual_kw| ≤ st.config.p_max_kw) ∧
    (st.config.device_type = DeviceType.pv →
      0 ≤ (st.step dt sin_val noise_frac).p_actual_kw ∧
        (st.step dt sin_val noise_frac).p_actual_kw ≤
          21 / 20 * st.config.p_max_kw) ∧
    (p_min ≤ ramp_power current target rr p_max p_min jitter ∧
      ramp_power current target rr p_max p_min jitter ≤ p_max) ∧
    (0 ≤ pv_power_kw hour p_max sv2 nz2 ∧
      pv_power_kw hour p_max sv2 nz2 ≤ 11 / 10 * p_max) := by
  have hpmax0 : 0 ≤ st.config.p_max_kw := le_trans (abs_nonneg _) hInv
  have hab := abs_le.mp hInv
  have hnf := abs_le.mp hn
  refine ⟨?_, ?_, ramp_power_mem current target rr p_max p_min jitter hmm, ?_⟩
  · intro hne
    have htb := clamp_mem (-st.config.p_max_kw) st.config.p_max_kw
      (st.p_setpoint_kw.getD 0) (by linarith)
    have hstep : (st.step dt sin_val noise_frac).p_actual_kw
        = st.p_actual_kw + (st.target_kw - st.p_actual_kw) * (2 / 5) := by
      simp [DERState.step, hne]
    unfold DERState.target_kw at *
    rw [hstep, abs_le]
    constructor <;> linarith [htb.1, htb.2]
  · intro hpv
    have hstep : (st.step dt sin_val noise_frac).p_actual_kw
        = max 0 (st.config.p_max_kw * sin_val +
            noise_frac * st.config.p_max_kw) := by
      simp [DERState.step, hpv, DERState.compute_pv_power]
    rw [hstep]
    refine ⟨le_max_left _ _, max_le (by linarith) ?_⟩
    nlinarith
  · unfold pv_power_kw
    split
    · constructor
      · norm_num
      · positivity
    · constructor
      · exact mul_nonneg (le_max_left _ _) hpm
      · have hlev : max 0 (min (11 / 10) (max sv2 0 + nz2)) ≤ 11 / 10 :=
          max_le (by norm_num) (min_le_left _ _)
        calc max 0 (min (11 / 10) (max sv2 0 + nz2)) * p_max
            ≤ 11 / 10 * p_max := mul_le_mul_of_nonneg_right hlev hpm
          _ = 11 / 10 * p_max := rfl

/-- C1 witness: the amended bound applied to a concrete battery step. -/
theorem C1_power_bound_witness :
    |(batAgentState.step 5 1 0).p_actual_kw| ≤ batAgentState.config.p_max_kw :=
  (C1_power_bound batAgentState 5 1 0 (by norm_num) (by norm_num)
      (by norm_num [batAgentState, abs_zero]) 0 1 1 4 0 0 12 1 0 (by norm_num)
      (by norm_num)).1
    (by decide)

/-!  Claims C2 and C3: admission-filter behaviour. -/

/-- A duplicate string message id short-circuits admission: the state is
returned untouched with the duplicate label. -/
theorem admit_dup (st : DERState) (p : ControlMsg) (t : ℚ) (s : String)
    (hid : p.messageId = JVal.jstr s) (hmem : s ∈ st.processed_setpoints)
    (hty : p.messageType = JVal.jstr "setpoint") (hv : p.v.asNum = some 1) :
    st.admit_setpoint p t = (st, AdmitResult.rejectedDuplicate) := by
  unfold DERState.admit_setpoint
  rw [if_pos ⟨hty, hv⟩]
  have hd : is_dup st.processed_setpoints p.messageId = true := by
    rw [hid]; unfold is_dup; exact decide_eq_true hmem
  rw [if_pos hd]

/-- C2: once a message id `s` sits in the dedup ledger after the first
delivery, re-delivering any envelope carrying `messageId = s` — whatever
its `targetPowerKw` — changes nothing; if that envelope passes the
version/type gate it is labelled a duplicate.  The simulator's
`on_message` ledger behaves the same way. -/
theorem C2_duplicate_noop (st : DERState) (p1 p2 : ControlMsg) (t1 t2 : ℚ)
    (s : String) (h2 : p2.messageId = JVal.jstr s)
    (happ : s ∈ (st.update_from_control p1 t1).processed_setpoints)
    (sim : SimState) (dev : String) (hsim : s ∈ sim.processed) :
    (st.update_from_control p1 t1).update_from_control p2 t2
        = st.update_from_control p1 t1 ∧
      (p2.messageType = JVal.jstr "setpoint" → p2.v.asNum = some 1 →
        (st.update_from_control p1 t1).admit_setpoint p2 t2
          = (st.update_from_control p1 t1, AdmitResult.rejectedDuplicate)) ∧
      sim_on_message sim dev p2 t2 = sim := by
  refine ⟨?_, ?_, ?_⟩
  · show ((st.update_from_control p1 t1).admit_setpoint p2 t2).1
        = st.update_from_control p1 t1
    by_cases hv : p2.messageType = JVal.jstr "setpoint" ∧ p2.v.asNum = some 1
    · rw [admit_dup _ p2 t2 s h2 happ hv.1 hv.2]
    · unfold DERState.admit_setpoint
      rw [if_neg hv]
  · intro hty hv
    exact admit_dup _ p2 t2 s h2 happ hty hv
  · unfold sim_on_message
    by_cases hv : p2.messageType = JVal.jstr "setpoint" ∧ p2.v.asNum = some 1
    · rw [if_pos hv]
      have hd : is_dup sim.processed p2.messageId = true := by
        rw [h2]; unfold is_dup; exact decide_eq_true hsim
      rw [if_pos hd]
    · rw [if_neg hv]

/-- C2 witness: a concrete duplicate re-delivery with a different
target is a no-op. -/
theorem C2_duplicate_noop_witness :
    (batAgentState.update_from_control
          ⟨JVal.jnum 1, JVal.jstr "setpoint", JVal.jstr "m1", JVal.jnum 2,
            JVal.jnull⟩ 0).update_from_control
        ⟨JVal.jnum 1, JVal.jstr "setpoint", JVal.jstr "m1", JVal.jnum 3,
          JVal.jnull⟩ 7
      = batAgentState.update_from_control
          ⟨JVal.jnum 1, JVal.jstr "setpoint", JVal.jstr "m1", JVal.jnum 2,
            JVal.jnull⟩ 0 :=
  (C2_duplicate_noop batAgentState
      ⟨JVal.jnum 1, JVal.jstr "setpoint", JVal.jstr "m1", JVal.jnum 2,
        JVal.jnull⟩
      ⟨JVal.jnum 1, JVal.jstr "setpoint", JVal.jstr "m1", JVal.jnum 3,
        JVal.jnull⟩
      0 7 "m1" rfl (by decide) ⟨[], ["m1"]⟩ "bat-001" (by decide)).1

/-- Every admission either leaves the state untouched or is a
successful application. -/
theorem admit_cases (st : DERState) (p : ControlMsg) (t : ℚ) :
    (st.admit_setpoint p t).1 = st ∨ ∃ q, (st.admit_setpoint p t).2 = AdmitResult.applied q := by
  unfold DERState.admit_setpoint
  by_cases hv : p.messageType = JVal.jstr "setpoint" ∧ p.v.asNum = some 1
  · rw [if_pos hv]
    by_cases hd : is_dup st.processed_setpoints p.messageId = true
    · left; simp [hd]
    · simp only [Bool.not_eq_true] at hd
      by_cases he : is_expired p.validUntilMs t = true
      · left; simp [hd, he]
      · simp only [Bool.not_eq_true] at he
        cases htg : p.targetPowerKw with
        | jnull => left; simp [hd, he, htg]
        | jstr s => left; simp [hd, he, htg]
        | jnum q => right; exact ⟨q, by simp [hd, he, htg]⟩
        | jbool b =>
            right
            exact ⟨if b then 1 else 0, by simp [hd, he, htg]⟩
  · left; rw [if_neg hv]

/-- An envelope whose `validUntilMs` is numeric and in the past can
never reach the application branch. -/
theorem admit_expired_noop (st : DERState) (p : ControlMsg) (t u : ℚ)
    (hu : p.validUntilMs.asNum = some u) (hlt : u < t) :
    (st.admit_setpoint p t).1 = st := by
  have he : is_expired p.validUntilMs t = true := by
    unfold is_expired; rw [hu]; exact decide_eq_true hlt
  unfold DERState.admit_setpoint
  by_cases hv : p.messageType = JVal.jstr "setpoint" ∧ p.v.asNum = some 1
  · rw [if_pos hv]
    by_cases hd : is_dup st.processed_setpoints p.messageId = true
    · simp [hd]
    · simp only [Bool.not_eq_true] at hd
      simp [hd, he]
  · rw [if_neg hv]

/-- C3: every rejection of the Setpoint Admission Filter is a complete
no-op on the device state — `p_setpoint_kw`, `processed_setpoints`,
`p_actual_kw` and `soc` all keep their prior values, since the whole
state is returned unchanged; in particular an expired command
(`validUntilMs < nowMs`) changes nothing, in the agent and in the
simulator's `on_message`. -/
theorem C3_rejection_noop (st : DERState) (p : ControlMsg) (t : ℚ)
    (sim : SimState) (dev : String) :
    ((∀ q, (st.admit_setpoint p t).2 ≠ AdmitResult.applied q) →
        st.update_from_control p t = st) ∧
      (∀ u, p.validUntilMs.asNum = some u → u < t →
        st.update_from_control p t = st) ∧
      (∀ u, p.validUntilMs.asNum = some u → u < t →
        sim_on_message sim dev p t = sim) := by
  refine ⟨?_, ?_, ?_⟩
  · intro hrej
    rcases admit_cases st p t with h | ⟨q, hq⟩
    · exact h
    · exact absurd hq (hrej q)
  · intro u hu hlt
    exact admit_expired_noop st p t u hu hlt
  · intro u hu hlt
    have he : is_expired p.validUntilMs t = true := by
      unfold is_expired; rw [hu]; exact decide_eq_true hlt
    unfold sim_on_message
    by_cases hv : p.messageType = JVal.jstr "setpoint" ∧ p.v.asNum = some 1
    · rw [if_pos hv]
      by_cases hd : is_dup sim.processed p.messageId = true
      · simp [hd]
      · simp only [Bool.not_eq_true] at hd
        simp [hd, he]
    · rw [if_neg hv]

/-- C3 witness: a concrete expired command does not move the state. -/
theorem C3_rejection_noop_witness :
    batAgentState.update_from_control
        ⟨JVal.jnum 1, JVal.jstr "setpoint", JVal.jstr "m2", JVal.jnum 3,
          JVal.jnum 0⟩ 5
      = batAgentState :=
  (C3_rejection_noop batAgentState
      ⟨JVal.jnum 1, JVal.jstr "setpoint", JVal.jstr "m2", JVal.jnum 3,
        JVal.jnum 0⟩ 5 ⟨[], []⟩ "bat-001").2.1 0 rfl (by norm_num)

/-!  Claim C4: SOC integration formulas. -/

/-- A simulator battery at SOC 0.5, idle. -/
def c4Battery : BatteryState := { soc := 1 / 2, p_actual_kw := 0 }

/-- C4, counterexample: in the simulator battery branch
(`soc_delta = +energy_delta_kwh / BATTERY_KWH`), one step with
`p_max = 4`, `load_multiplier = 2` and zero jitter produces a strictly
positive power **and a strictly increased SOC** — the claimed negated
formula would require the SOC to decrease under positive (discharge)
power. -/
theorem C4_counterexample :
    0 < (battery_step c4Battery 4 2 0).p_actual_kw ∧
      c4Battery.soc < (battery_step c4Battery 4 2 0).soc := by
  have hp : (battery_step c4Battery 4 2 0).p_actual_kw = 1 / 5 := by
    norm_num [battery_step, battery_target_kw, ramp_power, clamp, c4Battery]
  have hs : (battery_step c4Battery 4 2 0).soc = 1 / 2 + 1 / 72000 := by
    norm_num [battery_step, battery_target_kw, ramp_power, clamp, c4Battery,
      DT_SECONDS, BATTERY_KWH]
  rw [hp, hs]
  norm_num [c4Battery]

/-- C4, amended: the agent's battery/EV step does follow the negated
percentage formula `socDelta = -(pActual'/pMaxKw)·100·dtHours` (with
`pMaxKw` in the role of the capacity), clamped to `[0, 100]`; the
simulator's battery and EV branches instead add the **positive**
fraction `energyDeltaKwh / capacity` (capacity `BATTERY_KWH` resp.
`EV_CAPACITIES[id]`), so there positive power increases the SOC. -/
theorem C4_soc_update_forms (st : DERState) (dt sv nf s : ℚ)
    (hty : st.config.device_type ≠ DeviceType.pv) (hsoc : st.soc = some s)
    (hpm : 0 < st.config.p_max_kw)
    (bs : BatteryState) (pB lm jB : ℚ) (ev : EvState) (sp : Option ℚ)
    (pE cap lmE gE jE : ℚ) :
    (st.step dt sv nf).soc = some (clamp 0 100
        (s + -((st.step dt sv nf).p_actual_kw / st.config.p_max_kw) * 100 *
          (dt / 3600))) ∧
      (battery_step bs pB lm jB).soc = clamp (1 / 10) (9 / 10)
        (bs.soc + (battery_step bs pB lm jB).p_actual_kw *
          (DT_SECONDS / 3600) / BATTERY_KWH) ∧
      (ev_step ev sp pE cap lmE gE jE).soc = clamp 0 1
        (ev.soc + compute_ev_power sp pE lmE gE ev.last_p_actual jE *
          (DT_SECONDS / 3600) / cap) := by
  refine ⟨?_, ?_, ?_⟩
  · simp [DERState.step, hty, hsoc, hpm]
  · simp [battery_step]
  · simp [ev_step]

/-- C4 witness: the agent-side formula at a concrete battery step. -/
theorem C4_soc_update_forms_witness :
    (batAgentState.step 5 1 0).soc = some (clamp 0 100
        (50 + -((batAgentState.step 5 1 0).p_actual_kw /
            batAgentState.config.p_max_kw) * 100 * (5 / 3600))) :=
  (C4_soc_update_forms batAgentState 5 1 0 50 (by decide) rfl
      (by norm_num [batAgentState]) c4Battery 4 1 0
      ⟨1 / 2, 0, none⟩ none 7 60 1 0 0).1

/-!  Claim C5: SOC stays within its configured bounds. -/

/-- Admission never touches the physical fields. -/
theorem admit_preserves_physical (st : DERState) (p : ControlMsg) (t : ℚ) :
    (st.admit_setpoint p t).1.soc = st.soc ∧
      (st.admit_setpoint p t).1.p_actual_kw = st.p_actual_kw ∧
      (st.admit_setpoint p t).1.config = st.config := by
  rcases admit_cases st p t with h | ⟨q, _⟩
  · rw [h]; exact ⟨rfl, rfl, rfl⟩
  · unfold DERState.admit_setpoint at *
    by_cases hv : p.messageType = JVal.jstr "setpoint" ∧ p.v.asNum = some 1
    · rw [if_pos hv] at *
      by_cases hd : is_dup st.processed_setpoints p.messageId = true
      · simp [hd]
      · simp only [Bool.not_eq_true] at hd
        by_cases he : is_expired p.validUntilMs t = true
        · simp [hd, he]
        · simp only [Bool.not_eq_true] at he
          cases htg : p.targetPowerKw <;>
            simp [hd, he, htg, DERState.apply_setpoint]
    · rw [if_neg hv]; exact ⟨rfl, rfl, rfl⟩

/-- One agent step keeps the SOC inside `[0, 100]` when it was inside. -/
theorem step_soc_bounds (st : DERState) (dt sv nf : ℚ)
    (h : soc_in_bounds st) : soc_in_bounds (st.step dt sv nf) := by
  by_cases hty : st.config.device_type = DeviceType.pv
  · have hsoc : (st.step dt sv nf).soc = st.soc := by
      simp [DERState.step, hty]
    unfold soc_in_bounds at *
    rw [hsoc]
    exact h
  · cases hsoc : st.soc with
    | none =>
        unfold soc_in_bounds
        simp [DERState.step, hty, hsoc]
    | some s =>
        by_cases hpm : 0 < st.config.p_max_kw
        · unfold soc_in_bounds
          simp only [DERState.step, hty, hsoc, hpm, if_true, if_neg hty]
          exact clamp_mem 0 100 _ (by norm_num)
        · unfold soc_in_bounds at *
          simp only [DERState.step, hty, hsoc, hpm, if_false, if_neg hty]
          rw [hsoc] at h
          simpa [hpm] using h

/-- SOC bounds are preserved along any finite event trace. -/
theorem run_soc_bounds (evs : List AgentEvent) (st : DERState)
    (h : soc_in_bounds st) : soc_in_bounds (st.run evs) := by
  induction evs generalizing st with
  | nil => exact h
  | cons e es ih =>
      apply ih
      cases e with
      | control p t =>
          have hs := (admit_preserves_physical st p t).1
          unfold soc_in_bounds at *
          show (match (st.update_from_control p t).soc with
            | some s => 0 ≤ s ∧ s ≤ 100
            | none => True)
          rw [show (st.update_from_control p t).soc = st.soc from hs]
          exact h
      | tick dt sv nf => exact step_soc_bounds st dt sv nf h

/-- C5: over any finite sequence of admissions and steps with arbitrary
setpoints and arbitrary `dt`, the agent's SOC stays in `[0, 100]`; every
simulator battery step lands in `[0.1, 0.9]` and every simulator EV step
lands in `[0, 1]`, from any prior state. -/
theorem C5_soc_bounds (st : DERState) (evs : List AgentEvent)
    (h : soc_in_bounds st) (bs : BatteryState) (pB lm jB : ℚ)
    (ev : EvState) (sp : Option ℚ) (pE cap lmE gE jE : ℚ) :
    soc_in_bounds (st.run evs) ∧
      (1 / 10 ≤ (battery_step bs pB lm jB).soc ∧
        (battery_step bs pB lm jB).soc ≤ 9 / 10) ∧
      (0 ≤ (ev_step ev sp pE cap lmE gE jE).soc ∧
        (ev_step ev sp pE cap lmE gE jE).soc ≤ 1) := by
  refine ⟨run_soc_bounds evs st h, ?_, ?_⟩
  · have hb : (battery_step bs pB lm jB).soc = clamp (1 / 10) (9 / 10)
        (bs.soc + (battery_step bs pB lm jB).p_actual_kw *
          (DT_SECONDS / 3600) / BATTERY_KWH) := by
      simp [battery_step]
    rw [hb]
    exact clamp_mem _ _ _ (by norm_num)
  · have he : (ev_step ev sp pE cap lmE gE jE).soc = clamp 0 1
        (ev.soc + compute_ev_power sp pE lmE gE ev.last_p_actual jE *
          (DT_SECONDS / 3600) / cap) := by
      simp [ev_step]
    rw [he]
    exact clamp_mem _ _ _ (by norm_num)

/-- C5 witness: bounds hold after one concrete tick from SOC 50. -/
theorem C5_soc_bounds_witness :
    soc_in_bounds (batAgentState.run [AgentEvent.tick 5 1 0]) :=
  (C5_soc_bounds batAgentState [AgentEvent.tick 5 1 0]
      (by norm_num [soc_in_bounds, batAgentState]) c4Battery 4 1 0
      ⟨1 / 2, 0, none⟩ none 7 60 1 0 0).1

/-!  Claim C6: EV charge-complete cutoff. -/

/-- C6: once an EV's SOC has reached the 0.98 threshold, every further
simulator step forces the published `p_actual_kw` to 0 and resets the
stored last-actual power to 0, regardless of the setpoint — and the SOC
never falls back below the threshold (EV power is never negative). -/
theorem C6_ev_cutoff (ev : EvState) (sp : Option ℚ)
    (p_max cap lm gauss jitter : ℚ) (hcap : 0 < cap)
    (hsoc : 98 / 100 ≤ ev.soc) :
    (ev_step ev sp p_max cap lm gauss jitter).p_actual_kw = 0 ∧
      (ev_step ev sp p_max cap lm gauss jitter).last_p_actual = some 0 ∧
      98 / 100 ≤ (ev_step ev sp p_max cap lm gauss jitter).soc := by
  have hp0 : 0 ≤ compute_ev_power sp p_max lm gauss ev.last_p_actual jitter := by
    unfold compute_ev_power ramp_power
    exact le_max_left 0 _
  have hd : 0 ≤ compute_ev_power sp p_max lm gauss ev.last_p_actual jitter *
      (DT_SECONDS / 3600) / cap :=
    div_nonneg (mul_nonneg hp0 (by norm_num [DT_SECONDS])) (le_of_lt hcap)
  have hsoc1 : 98 / 100 ≤ clamp 0 1
      (ev.soc + compute_ev_power sp p_max lm gauss ev.last_p_actual jitter *
        (DT_SECONDS / 3600) / cap) := by
    unfold clamp
    have h1 : (98 : ℚ) / 100 ≤ min 1
        (ev.soc + compute_ev_power sp p_max lm gauss ev.last_p_actual jitter *
          (DT_SECONDS / 3600) / cap) :=
      le_min (by norm_num) (by linarith)
    exact le_trans h1 (le_max_right _ _)
  refine ⟨?_, ?_, ?_⟩
  · show (if 98 / 100 ≤ clamp 0 1 _ then (0 : ℚ) else _) = 0
    rw [if_pos hsoc1]
  · show (some (if 98 / 100 ≤ clamp 0 1 _ then (0 : ℚ) else _)
        : Option ℚ) = some 0
    rw [if_pos hsoc1]
  · exact hsoc1

/-- C6 witness: a full EV at SOC 0.99 publishes 0 kW. -/
theorem C6_ev_cutoff_witness :
    (ev_step ⟨99 / 100, 0, some 0⟩ (some (36 / 5)) (36 / 5) 60 1 0 0).p_actual_kw
      = 0 :=
  (C6_ev_cutoff ⟨99 / 100, 0, some 0⟩ (some (36 / 5)) (36 / 5) 60 1 0 0
      (by norm_num) (by norm_num)).1

/-!  Claim C7: target clamping. -/

/-- C7, counterexample: for the simulator EV with `p_max = 7.2` and a
commanded setpoint of `-5`, the code's target is
`max(0, min(p_max, -5)) = 0`, while the claimed symmetric clamp
`clamp(-p_max, p_max, -5)` is `-5`: the simulator does not clamp to
`[-pMax, pMax]`. -/
theorem C7_counterexample :
    ev_target (some (-5)) (36 / 5) 1 0 = 0 ∧
      clamp (-(36 / 5)) (36 / 5) (-5) = -5 ∧
      ev_target (some (-5)) (36 / 5) 1 0 ≠ clamp (-(36 / 5)) (36 / 5) (-5) := by
  refine ⟨?_, ?_, ?_⟩ <;> norm_num [ev_target, clamp]

/-- C7, amended: the agent's battery/EV step does use
`target = clamp(setpoint ?? 0, -pMax, pMax)` (missing setpoint read as
0); the simulator's EV instead clamps a present setpoint to
`[0, pMax]`, and a missing setpoint yields a profile-driven stochastic
default, also clamped to `[0, pMax]`, not 0. -/
theorem C7_target_clamp (st : DERState)
    (hty : st.config.device_type ≠ DeviceType.pv)
    (dt sv nf sp p_max lm gauss : ℚ) :
    st.target_kw = clamp (-st.config.p_max_kw) st.config.p_max_kw
        (st.p_setpoint_kw.getD 0) ∧
      (st.step dt sv nf).p_actual_kw
        = st.p_actual_kw + (st.target_kw - st.p_actual_kw) * (2 / 5) ∧
      ev_target (some sp) p_max lm gauss = clamp 0 p_max sp ∧
      ev_target none p_max lm gauss
        = clamp 0 p_max (p_max * (11 / 20) * lm + gauss) := by
  refine ⟨rfl, ?_, rfl, rfl⟩
  simp [DERState.step, hty]

/-- C7 witness: a concrete over-limit setpoint is clamped to `pMax`. -/
theorem C7_target_clamp_witness :
    ({ batAgentState with p_setpoint_kw := some 9 } : DERState).target_kw
      = clamp (-batAgentState.config.p_max_kw) batAgentState.config.p_max_kw
          (9 : ℚ) :=
  (C7_target_clamp { batAgentState with p_setpoint_kw := some 9 } (by decide)
      5 1 0 2 4 1 0).1

/-!  Claim C8: PV is non-negative, setpoint-blind, and SOC-free. -/

/-- C8: a PV step always produces `p_actual_kw ≥ 0`, leaves `soc` and
`p_setpoint_kw` untouched, and its output does not depend on whatever
setpoint is stored; the simulator's `pv_power_kw` (which reads no
setpoint at all) is likewise non-negative. -/
theorem C8_pv_step (st : DERState)
    (hty : st.config.device_type = DeviceType.pv)
    (dt sv nf hour p_max sv2 nz2 : ℚ) (hpm : 0 ≤ p_max) (sp : Option ℚ) :
    0 ≤ (st.step dt sv nf).p_actual_kw ∧
      (st.step dt sv nf).soc = st.soc ∧
      (st.step dt sv nf).p_setpoint_kw = st.p_setpoint_kw ∧
      (DERState.step { st with p_setpoint_kw := sp } dt sv nf).p_actual_kw
        = (st.step dt sv nf).p_actual_kw ∧
      0 ≤ pv_power_kw hour p_max sv2 nz2 := by
  refine ⟨?_, ?_, ?_, ?_, ?_⟩
  · simp only [DERState.step, hty, if_true]
    exact le_max_left _ _
  · simp [DERState.step, hty]
  · simp [DERState.step, hty]
  · simp [DERState.step, hty, DERState.compute_pv_power]
  · unfold pv_power_kw
    split
    · norm_num
    · exact mul_nonneg (le_max_left _ _) hpm

/-- C8 witness: the PV bound at a concrete state with a stored
setpoint. -/
theorem C8_pv_step_witness :
    0 ≤ (pvAgentState.step 5 1 (-1 / 20)).p_actual_kw :=
  (C8_pv_step pvAgentState (by decide) 5 1 (-1 / 20) 12 5 1 0 (by norm_num)
      (some 3)).1

/-!  Claim C9: telemetry rounding and fresh message ids. -/

/-- C9, counterexample: the simulator's envelope carries the raw
`p_actual` in `payload.readings.powerKw` — at `p_actual = 1/3` that
value is not equal to its 3-decimal rounding, so the simulator does not
round its readings as claimed (only the agent does). -/
theorem C9_counterexample :
    (sim_envelope "ev-001" DeviceType.ev (1 / 3) none 0 0 "m1"
        "house-01").readings.powerKw = 1 / 3 ∧
      roundTo 3 (1 / 3) ≠ (1 / 3 : ℚ) := by
  constructor
  · rfl
  · have h3 : roundTo 3 (1 / 3) = 333 / 1000 := by
      norm_num [roundTo, round_eq]
    rw [h3]
    norm_num

/-- C9, amended: the agent's telemetry rounds `powerKw` to 3 decimals
and `soc` to 2, and carries exactly the injected fresh message id
(distinct fresh ids give distinct envelope ids); the simulator's
envelope also carries a fresh id but publishes `powerKw` and `soc`
unrounded. -/
theorem C9_telemetry (st : DERState) (now_ms ts ss p : ℚ)
    (id1 id2 dev site : String) (dt : DeviceType) (soc : Option ℚ) :
    (st.telemetry now_ms id1).readings.powerKw = roundTo 3 st.p_actual_kw ∧
      (st.telemetry now_ms id1).readings.soc
        = Option.map (roundTo 2) st.soc ∧
      (st.telemetry now_ms id1).messageId = id1 ∧
      (id1 ≠ id2 →
        (st.telemetry now_ms id1).messageId
          ≠ (st.telemetry now_ms id2).messageId) ∧
      (sim_envelope dev dt p soc ts ss id1 site).readings.powerKw = p ∧
      (sim_envelope dev dt p soc ts ss id1 site).readings.soc = soc ∧
      (sim_envelope dev dt p soc ts ss id1 site).messageId = id1 ∧
      (id1 ≠ id2 →
        (sim_envelope dev dt p soc ts ss id1 site).messageId
          ≠ (sim_envelope dev dt p soc ts ss id2 site).messageId) := by
  refine ⟨rfl, rfl, rfl, ?_, rfl, rfl, rfl, ?_⟩
  · intro h12
    exact h12
  · intro h12
    exact h12

/-- C9 witness: concrete distinct fresh ids give distinct envelope
ids. -/
theorem C9_telemetry_witness :
    (batAgentState.telemetry 0 "id-a").messageId
      ≠ (batAgentState.telemetry 0 "id-b").messageId :=
  (C9_telemetry batAgentState 0 0 0 2 "id-a" "id-b" "bat-001" "house-01"
      DeviceType.battery none).2.2.2.1 (by decide)

/-!  Claim C10: commands without a string message id skip the ledger. -/

/-- `is_dup` can only fire on a string message id. -/
theorem is_dup_nonstring (processed : List String) (mid : JVal)
    (h : ∀ s, mid ≠ JVal.jstr s) : is_dup processed mid = false := by
  cases mid with
  | jnull => rfl
  | jstr s => exact absurd rfl (h s)
  | jnum q => rfl
  | jbool b => rfl

/-- Admitting any envelope whose message id is not a string leaves the
dedup ledger untouched. -/
theorem admit_ledger_nonstring (st : DERState) (p : ControlMsg) (t : ℚ)
    (h : ∀ s, p.messageId ≠ JVal.jstr s) :
    (st.admit_setpoint p t).1.processed_setpoints = st.processed_setpoints := by
  rcases admit_cases st p t with heq | _
  · rw [heq]
  all_goals
    unfold DERState.admit_setpoint
    by_cases hv : p.messageType = JVal.jstr "setpoint" ∧ p.v.asNum = some 1
    · rw [if_pos hv]
      have hd := is_dup_nonstring st.processed_setpoints p.messageId h
      by_cases he : is_expired p.validUntilMs t = true
      · simp [hd, he]
      · simp only [Bool.not_eq_true] at he
        cases htg : p.targetPowerKw with
        | jnull => simp [hd, he, htg]
        | jstr s => simp [hd, he, htg]
        | jnum q =>
            simp only [hd, he, htg, Bool.false_eq_true, if_false]
            cases hm : p.messageId with
            | jnull => simp [DERState.apply_setpoint, hm]
            | jstr s => exact absurd hm (h s)
            | jnum q2 => simp [DERState.apply_setpoint, hm]
            | jbool b => simp [DERState.apply_setpoint, hm]
        | jbool b =>
            simp only [hd, he, htg, Bool.false_eq_true, if_false]
            cases hm : p.messageId with
            | jnull => simp [DERState.apply_setpoint, hm]
            | jstr s => exact absurd hm (h s)
            | jnum q2 => simp [DERState.apply_setpoint, hm]
            | jbool b2 => simp [DERState.apply_setpoint, hm]
    · rw [if_neg hv]

/-- C10: with an absent or non-string `messageId` the admission filter
never consults or grows the dedup ledger — for any such envelope the
ledger is unchanged — and an otherwise-valid such command is applied
anew on every re-delivery: both the first and the repeated admission
return `applied q` and set `p_setpoint_kw = q`.  The simulator ledger
behaves identically. -/
theorem C10_nonstring_mid (st : DERState) (p p2 : ControlMsg) (t q : ℚ)
    (hmid : ∀ s, p.messageId ≠ JVal.jstr s)
    (hmid2 : ∀ s, p2.messageId ≠ JVal.jstr s)
    (hty : p.messageType = JVal.jstr "setpoint") (hv : p.v.asNum = some 1)
    (hexp : is_expired p.validUntilMs t = false)
    (htg : p.targetPowerKw = JVal.jnum q)
    (sim : SimState) (dev : String) :
    (st.admit_setpoint p2 t).1.processed_setpoints = st.processed_setpoints ∧
      st.admit_setpoint p t = (st.apply_setpoint q p.messageId, AdmitResult.applied q) ∧
      (st.admit_setpoint p t).1.p_setpoint_kw = some q ∧
      (st.admit_setpoint p t).1.admit_setpoint p t
        = ((st.admit_setpoint p t).1.apply_setpoint q p.messageId,
            AdmitResult.applied q) ∧
      ((st.admit_setpoint p t).1.admit_setpoint p t).1.p_setpoint_kw = some q ∧
      (sim_on_message sim dev p t).processed = sim.processed := by
  have hd : ∀ l : List String, is_dup l p.messageId = false :=
    fun l => is_dup_nonstring l p.messageId hmid
  have hadm : ∀ s0 : DERState, s0.admit_setpoint p t
      = (s0.apply_setpoint q p.messageId, AdmitResult.applied q) := by
    intro s0
    unfold DERState.admit_setpoint
    rw [if_pos ⟨hty, hv⟩, hd s0.processed_setpoints]
    simp [hexp, htg]
  refine ⟨admit_ledger_nonstring st p2 t hmid2, hadm st, ?_, hadm _, ?_, ?_⟩
  · rw [hadm st]
    cases hm : p.messageId <;> simp [DERState.apply_setpoint]
  · rw [hadm ((st.admit_setpoint p t).1)]
    cases hm : p.messageId <;> simp [DERState.apply_setpoint]
  · unfold sim_on_message
    rw [if_pos ⟨hty, hv⟩, hd sim.processed]
    simp only [Bool.false_eq_true, if_false, hexp, htg]
    cases hm : p.messageId with
    | jnull => rfl
    | jstr s => exact absurd hm (hmid s)
    | jnum q2 => rfl
    | jbool b => rfl

/-- C10 witness: a numeric message id (42) is admitted, recorded in no
ledger, and admitted again with full effect on re-delivery. -/
theorem C10_nonstring_mid_witness :
    (batAgentState.admit_setpoint
        ⟨JVal.jnum 1, JVal.jstr "setpoint", JVal.jnum 42, JVal.jnum 3,
          JVal.jnull⟩ 5).1.processed_setpoints
      = batAgentState.processed_setpoints :=
  (C10_nonstring_mid batAgentState
      ⟨JVal.jnum 1, JVal.jstr "setpoint", JVal.jnum 42, JVal.jnum 3,
        JVal.jnull⟩
      ⟨JVal.jnum 1, JVal.jstr "setpoint", JVal.jnum 42, JVal.jnum 3,
        JVal.jnull⟩ 5 3
      (fun _ h => JVal.noConfusion h) (fun _ h => JVal.noConfusion h)
      rfl rfl rfl rfl ⟨[], []⟩ "bat-001").1
